import Mathlib

/-!
# Manager proxy service

A shallow embedding of `ManagerProxyImpl` from `src/server/main.cpp`: the gRPC
service that lists plugin identifiers, instantiates manager implementations,
keeps them in the `managers_` map under a handle, and routes the handle-scoped
calls `Identifier`, `DisplayName` and `Initialize` to the stored instance.

Every handler is a function of the service object before the call, the
behaviour of the collaborators during the call (`Backend`), the request and the
response message it is given; it yields a `Reply`: how the handler ended, the
response message after the call, the service object after the call and the
collaborator operations the handler invoked.
-/

namespace ManagerProxy

/-! ## Collaborator types -/

/-- The value of a `ManagerInterfacePtr`: the address of the managed object.
Zero is the null pointer. -/
abbrev ManagerInterfacePtr := Nat

/-- The null `ManagerInterfacePtr`. -/
abbrev nullptr : ManagerInterfacePtr := 0

/-- Codes of `grpc::StatusCode`. -/
inductive StatusCode where
  | OK | CANCELLED | UNKNOWN | INVALID_ARGUMENT | DEADLINE_EXCEEDED | NOT_FOUND
  | ALREADY_EXISTS | PERMISSION_DENIED | RESOURCE_EXHAUSTED | FAILED_PRECONDITION
  | ABORTED | OUT_OF_RANGE | UNIMPLEMENTED | INTERNAL | UNAVAILABLE | DATA_LOSS
  | UNAUTHENTICATED
  deriving DecidableEq, Repr

/-- A `grpc::Status`: a code and the error message sent to the caller. -/
structure Status where
  code : StatusCode
  error_message : String
  deriving DecidableEq, Repr

/-- The predefined `grpc::Status::OK`. -/
def Status.OK : Status := ⟨StatusCode.OK, ""⟩

/-- The predefined `grpc::Status::CANCELLED`, which grpcpp builds as
`Status(StatusCode::CANCELLED, "")`: the code with an empty message. -/
def Status.CANCELLED : Status := ⟨StatusCode.CANCELLED, ""⟩

/-- Whether a status is a success, as `grpc::Status::ok()`. -/
def Status.ok (s : Status) : Bool := s.code == StatusCode.OK

/-- How a handler invocation ends: it returns a `Status`, or an exception raised
by a collaborator leaves the handler, which has no `try` block. -/
inductive Outcome where
  | returned (status : Status)
  | raised (what : String)
  deriving DecidableEq, Repr

/-- The status the caller receives. grpcpp runs every handler inside a catch-all: a
status the handler returns is passed on, and an exception that leaves the handler
becomes `Status(StatusCode::UNKNOWN, "Unexpected error in RPC handling")`. -/
def Outcome.delivered : Outcome → Status
  | Outcome.returned status => status
  | Outcome.raised _ => ⟨StatusCode.UNKNOWN, "Unexpected error in RPC handling"⟩

/-- A call fails for its caller when the status the caller receives is not ok. -/
def Outcome.failed (outcome : Outcome) : Bool := !outcome.delivered.ok

/-- Severities of the logger interface. -/
inductive Severity where
  | debugApi | debug | info | progress | warning | error | critical
  deriving DecidableEq, Repr

/-- A primitive value of a settings dictionary. -/
inductive Primitive where
  | str (value : String)
  | int (value : Int)
  | bool (value : Bool)
  deriving DecidableEq, Repr

/-- The native settings dictionary `openassetio::InfoDictionary`. -/
abbrev InfoDictionary := List (String × Primitive)

/-- The native host session handed to `initialize`. -/
structure HostSession where
  id : String
  deriving DecidableEq, Repr

/-! ## Wire messages -/

/-- Wire form of a host session. -/
structure HostSessionMsg where
  id : String
  deriving DecidableEq, Repr

/-- Wire form of a settings dictionary. -/
abbrev InfoDictionaryMsg := List (String × Primitive)

structure EmptyRequest where
  deriving DecidableEq, Repr

structure EmptyResponse where
  deriving DecidableEq, Repr

/-- The repeated field keeps the spelling of the generated message class. -/
structure IdentifiersResponse where
  identifer : List String := []
  deriving DecidableEq, Repr

structure InstantiateRequest where
  identifier : String := ""
  deriving DecidableEq, Repr

structure InstantiateResponse where
  handle : String := ""
  deriving DecidableEq, Repr

structure DestroyRequest where
  handle : String := ""
  deriving DecidableEq, Repr

structure IdentifierRequest where
  handle : String := ""
  deriving DecidableEq, Repr

structure IdentifierResponse where
  identifier : String := ""
  deriving DecidableEq, Repr

structure DisplayNameRequest where
  handle : String := ""
  deriving DecidableEq, Repr

structure DisplayNameResponse where
  displayname : String := ""
  deriving DecidableEq, Repr

structure InitializeRequest where
  handle : String := ""
  hostsession : HostSessionMsg := ⟨""⟩
  settings : InfoDictionaryMsg := []
  deriving DecidableEq, Repr

/-- The generated `add_identifer`: appends one element to the repeated field. -/
def IdentifiersResponse.add_identifer (response : IdentifiersResponse) (identifier : String) :
    IdentifiersResponse :=
  { response with identifer := response.identifer ++ [identifier] }

/-- Modelled from the spec: `msgToHostSession` of `utils.hpp`, which is not part of
the sources at hand. The wire codec is pure and stateless and converts the wire
session descriptor into the native one. -/
def msgToHostSession (msg : HostSessionMsg) : HostSession := ⟨msg.id⟩

/-- Modelled from the spec: `msgToInfoDictionary` of `utils.hpp`, which is not part
of the sources at hand. The wire codec is pure and stateless and converts the wire
dictionary into the native one, entry by entry. -/
def msgToInfoDictionary (msg : InfoDictionaryMsg) : InfoDictionary := msg

/-! ## Collaborator behaviour -/

/-- What the collaborators do when a handler calls them during one RPC: the plugin
factory (`implementationFactory_`) and the manager objects behind the pointers.
Each operation either returns or throws (`Except.error` with the message). -/
structure Backend where
  identifiers : Except String (List String) := Except.ok []
  instantiate : String → Except String ManagerInterfacePtr := fun _ => Except.error "no plugin"
  identifier : ManagerInterfacePtr → Except String String := fun _ => Except.ok ""
  displayName : ManagerInterfacePtr → Except String String := fun _ => Except.ok ""
  managerInitialize : ManagerInterfacePtr → InfoDictionary → HostSession → Except String Unit :=
    fun _ _ _ => Except.ok ()

/-- A collaborator operation invoked by a handler. -/
inductive BackendCall where
  | factoryIdentifiers
  | factoryInstantiate (identifier : String)
  | managerIdentifier (manager : ManagerInterfacePtr)
  | managerDisplayName (manager : ManagerInterfacePtr)
  | managerInitialize (manager : ManagerInterfacePtr) (settings : InfoDictionary)
      (hostSession : HostSession)
  deriving DecidableEq, Repr

/-! ## The handle table -/

/-- The text that `handle << static_cast<void const *>(ptr)` writes for an address:
the hexadecimal digits in lower case after `0x`, and `0` for the null pointer
(the pointer inserter of libstdc++). -/
def ptrToString (p : ManagerInterfacePtr) : String :=
  if p = 0 then "0" else String.mk ('0' :: 'x' :: Nat.toDigits 16 p)

/-- The type of `managers_`, a `std::map` from handle to manager pointer: an
association list in which every key occurs once. `AList.lookup` is `find`
(`none` for `end()`) and `AList.erase` is `erase` of the entry that was found. -/
abbrev Managers := AList (fun _ : String => ManagerInterfacePtr)

/-- The `std::map::insert` of one pair: a key that is present keeps its value. -/
def mapInsert (m : Managers) (handle : String) (manager : ManagerInterfacePtr) : Managers :=
  if handle ∈ m then m else m.insert handle manager

/-- The pointers stored in the table: the instances the table keeps alive. -/
def Managers.instances (m : Managers) : List ManagerInterfacePtr :=
  m.entries.map fun e => e.2

/-! ## The service -/

/-- The service object. `logger_` holds the messages handed to the logger, oldest
first; `implementationFactory_` is a collaborator and appears as `Backend`. -/
structure ManagerProxyImpl where
  logger_ : List (Severity × String) := []
  managers_ : Managers := ∅

/-- What one handler invocation yields. -/
structure Reply (Response : Type) where
  outcome : Outcome
  response : Response
  self : ManagerProxyImpl
  invoked : List BackendCall

namespace ManagerProxyImpl

/-- One call on `logger_` with a severity and a message. -/
def log (self : ManagerProxyImpl) (severity : Severity) (message : String) : ManagerProxyImpl :=
  { self with logger_ := self.logger_ ++ [(severity, message)] }

/-- Lines 127-133. -/
def managerFromHandle (self : ManagerProxyImpl) (handle : String) : ManagerInterfacePtr :=
  match self.managers_.lookup handle with
  | none => nullptr
  | some manager => manager

/-- Lines 43-50. -/
def Identifiers (self : ManagerProxyImpl) (env : Backend) (_request : EmptyRequest)
    (response : IdentifiersResponse) : Reply IdentifiersResponse :=
  match env.identifiers with
  | Except.error what => ⟨Outcome.raised what, response, self, [BackendCall.factoryIdentifiers]⟩
  | Except.ok identifiers =>
    ⟨Outcome.returned Status.OK,
      identifiers.foldl (fun r identifier => r.add_identifer identifier) response,
      self, [BackendCall.factoryIdentifiers]⟩

/-- Lines 52-65. -/
def Instantiate (self : ManagerProxyImpl) (env : Backend) (request : InstantiateRequest)
    (response : InstantiateResponse) : Reply InstantiateResponse :=
  let identifier := request.identifier
  match env.instantiate identifier with
  | Except.error what =>
    ⟨Outcome.raised what, response, self, [BackendCall.factoryInstantiate identifier]⟩
  | Except.ok managerInterface =>
    let handle := ptrToString managerInterface
    let managers := mapInsert self.managers_ handle managerInterface
    let response := { response with handle := handle }
    let self := ({ self with managers_ := managers } : ManagerProxyImpl).log Severity.debugApi
      ("Instantiated " ++ identifier ++ " with handle " ++ handle)
    ⟨Outcome.returned Status.OK, response, self, [BackendCall.factoryInstantiate identifier]⟩

/-- Lines 67-80. -/
def Destroy (self : ManagerProxyImpl) (request : DestroyRequest) (response : EmptyResponse) :
    Reply EmptyResponse :=
  match self.managers_.lookup request.handle with
  | none =>
    ⟨Outcome.returned Status.OK, response,
      self.log Severity.warning ("Requested to destroy non-existent handle " ++ request.handle),
      []⟩
  | some _ =>
    ⟨Outcome.returned Status.OK, response,
      ({ self with managers_ := self.managers_.erase request.handle } : ManagerProxyImpl).log
        Severity.debugApi ("Destoryed " ++ request.handle),
      []⟩

/-- Lines 84-94. -/
def Identifier (self : ManagerProxyImpl) (env : Backend) (request : IdentifierRequest)
    (response : IdentifierResponse) : Reply IdentifierResponse :=
  let manager := self.managerFromHandle request.handle
  if manager ≠ nullptr then
    match env.identifier manager with
    | Except.error what =>
      ⟨Outcome.raised what, response, self, [BackendCall.managerIdentifier manager]⟩
    | Except.ok identifier =>
      ⟨Outcome.returned Status.OK, { response with identifier := identifier }, self,
        [BackendCall.managerIdentifier manager]⟩
  else
    ⟨Outcome.returned Status.CANCELLED, response,
      self.log Severity.error ("Identifier: Unknown handle " ++ request.handle), []⟩

/-- Lines 96-106. -/
def DisplayName (self : ManagerProxyImpl) (env : Backend) (request : DisplayNameRequest)
    (response : DisplayNameResponse) : Reply DisplayNameResponse :=
  let manager := self.managerFromHandle request.handle
  if manager ≠ nullptr then
    match env.displayName manager with
    | Except.error what =>
      ⟨Outcome.raised what, response, self, [BackendCall.managerDisplayName manager]⟩
    | Except.ok displayName =>
      ⟨Outcome.returned Status.OK, { response with displayname := displayName }, self,
        [BackendCall.managerDisplayName manager]⟩
  else
    ⟨Outcome.returned Status.CANCELLED, response,
      self.log Severity.error ("DisplayName: Unknown handle " ++ request.handle), []⟩

/-- Lines 108-124. -/
def Initialize (self : ManagerProxyImpl) (env : Backend) (request : InitializeRequest)
    (response : EmptyResponse) : Reply EmptyResponse :=
  let manager := self.managerFromHandle request.handle
  if manager ≠ nullptr then
    let hostSesssion := msgToHostSession request.hostsession
    let managerSettings := msgToInfoDictionary request.settings
    let self := self.log Severity.debugApi (request.handle ++ " initialize()")
    match env.managerInitialize manager managerSettings hostSesssion with
    | Except.error what =>
      ⟨Outcome.raised what, response, self,
        [BackendCall.managerInitialize manager managerSettings hostSesssion]⟩
    | Except.ok _ =>
      ⟨Outcome.returned Status.OK, response, self,
        [BackendCall.managerInitialize manager managerSettings hostSesssion]⟩
  else
    ⟨Outcome.returned Status.CANCELLED, response,
      self.log Severity.error ("Initialize: Unknown handle " ++ request.handle), []⟩

end ManagerProxyImpl

/-! ## Sequences of calls -/

/-- One call that can change the handle table, with the behaviour of the
collaborators during it. -/
inductive Call where
  | Instantiate (env : Backend) (request : InstantiateRequest)
  | Destroy (request : DestroyRequest)

/-- The service object after one call. Each call gets a fresh response message. -/
def step (self : ManagerProxyImpl) : Call → ManagerProxyImpl
  | Call.Instantiate env request => (self.Instantiate env request {}).self
  | Call.Destroy request => (self.Destroy request {}).self

/-- The service object after a sequence of calls, first call first. -/
def run (self : ManagerProxyImpl) (calls : List Call) : ManagerProxyImpl :=
  calls.foldl step self

/-- The service object at construction: nothing logged, no handle registered. -/
def initial : ManagerProxyImpl := {}

/-- Value of a lower case hexadecimal digit, the inverse of `Nat.digitChar` below 16. -/
def hexValue (c : Char) : Nat :=
  if c.toNat < 58 then c.toNat - 48 else c.toNat - 87

/-- The number a list of hexadecimal digits stands for, on top of `acc`. -/
def hexRead (acc : Nat) (digits : List Char) : Nat :=
  digits.foldl (fun value c => 16 * value + hexValue c) acc

/-- A plugin factory that creates every manager at the given address. -/
def factoryAt (address : ManagerInterfacePtr) : Backend :=
  { instantiate := fun _ => Except.ok address }

/-- A service object with one live instance, at address 4096 under handle `0x1000`. -/
def oneLive : ManagerProxyImpl :=
  run initial [Call.Instantiate (factoryAt 4096) ⟨"org.openassetio.test.manager"⟩]

/-- Manager objects that report their identifier and display name and whose
initialization throws. -/
def faultyManagers : Backend :=
  { identifier := fun _ => Except.ok "org.openassetio.test.manager"
    displayName := fun _ => Except.ok "Test Manager"
    managerInitialize := fun _ _ _ => Except.error "settings rejected" }

/-! ## Rendering of pointers -/

theorem hexValue_digitChar (d : Nat) (h : d < 16) : hexValue (Nat.digitChar d) = d := by
  interval_cases d <;> decide

theorem hexRead_toDigitsCore (fuel : Nat) :
    ∀ (n : Nat) (ds : List Char), n < fuel →
      hexRead 0 (Nat.toDigitsCore 16 fuel n ds) = hexRead n ds := by
  induction fuel with
  | zero => intro n ds h; omega
  | succ fuel ih =>
    intro n ds h
    simp only [Nat.toDigitsCore]
    by_cases h0 : n / 16 = 0
    · have hn : n < 16 := by omega
      simp only [h0, if_true, hexRead, List.foldl_cons]
      rw [hexValue_digitChar _ (Nat.mod_lt _ (by norm_num)), Nat.mod_eq_of_lt hn]
      simp
    · simp only [h0, if_false]
      rw [ih (n / 16) _ (by omega)]
      simp only [hexRead, List.foldl_cons]
      rw [hexValue_digitChar _ (Nat.mod_lt _ (by norm_num))]
      congr 1
      omega

theorem hexRead_toDigits (n : Nat) : hexRead 0 (Nat.toDigits 16 n) = n := by
  unfold Nat.toDigits
  rw [hexRead_toDigitsCore (n + 1) n [] (by omega)]
  rfl

theorem ptrToString_injective : Function.Injective ptrToString := by
  intro p q h
  unfold ptrToString at h
  by_cases hp : p = 0 <;> by_cases hq : q = 0
  · rw [hp, hq]
  · simp only [hp, hq, if_true, if_false] at h
    have := congrArg String.length h
    simp [String.length] at this
  · simp only [hp, hq, if_true, if_false] at h
    have := congrArg String.length h
    simp [String.length] at this
  · simp only [hp, hq, if_false] at h
    have h2 : Nat.toDigits 16 p = Nat.toDigits 16 q := by
      injection h with h1
      injection h1 with _ h1
      injection h1
    have := congrArg (hexRead 0) h2
    rwa [hexRead_toDigits, hexRead_toDigits] at this

/-! ## Single handlers -/

theorem foldl_add_identifer (identifiers : List String) :
    ∀ response : IdentifiersResponse,
      identifiers.foldl (fun r identifier => r.add_identifer identifier) response =
        ⟨response.identifer ++ identifiers⟩ := by
  induction identifiers with
  | nil => intro response; simp
  | cons identifier rest ih =>
    intro response
    rw [List.foldl_cons, ih]
    simp [IdentifiersResponse.add_identifer]

theorem managerFromHandle_of_absent (self : ManagerProxyImpl) (handle : String)
    (habsent : self.managers_.lookup handle = none) :
    self.managerFromHandle handle = nullptr := by
  simp [ManagerProxyImpl.managerFromHandle, habsent]

theorem managerFromHandle_of_present (self : ManagerProxyImpl) (handle : String)
    (manager : ManagerInterfacePtr) (hpresent : self.managers_.lookup handle = some manager) :
    self.managerFromHandle handle = manager := by
  simp [ManagerProxyImpl.managerFromHandle, hpresent]

theorem log_managers (self : ManagerProxyImpl) (severity : Severity) (message : String) :
    (self.log severity message).managers_ = self.managers_ := rfl

theorem Identifier_managers (self : ManagerProxyImpl) (env : Backend)
    (request : IdentifierRequest) (response : IdentifierResponse) :
    (self.Identifier env request response).self.managers_ = self.managers_ := by
  unfold ManagerProxyImpl.Identifier
  simp only []
  split
  · split <;> rfl
  · rfl

theorem DisplayName_managers (self : ManagerProxyImpl) (env : Backend)
    (request : DisplayNameRequest) (response : DisplayNameResponse) :
    (self.DisplayName env request response).self.managers_ = self.managers_ := by
  unfold ManagerProxyImpl.DisplayName
  simp only []
  split
  · split <;> rfl
  · rfl

theorem Initialize_managers (self : ManagerProxyImpl) (env : Backend)
    (request : InitializeRequest) (response : EmptyResponse) :
    (self.Initialize env request response).self.managers_ = self.managers_ := by
  unfold ManagerProxyImpl.Initialize
  simp only []
  split
  · split <;> rfl
  · rfl

/-- C9: when the plugin factory reports a sequence of identifiers, `Identifiers`
called with an empty response returns `Status::OK` with exactly that sequence in the
response (same order, same multiplicity), and the service object, the handle table
included, is as before; the only collaborator operation is the factory query. -/
theorem Identifiers_returns_factory_identifiers (self : ManagerProxyImpl) (env : Backend)
    (request : EmptyRequest) (identifiers : List String)
    (hreported : env.identifiers = Except.ok identifiers) :
    self.Identifiers env request {} =
      ⟨Outcome.returned Status.OK, ⟨identifiers⟩, self, [BackendCall.factoryIdentifiers]⟩ ∧
    Status.OK.ok = true := by
  refine ⟨?_, rfl⟩
  unfold ManagerProxyImpl.Identifiers
  rw [hreported]
  simp [foldl_add_identifer]

theorem Identifiers_returns_factory_identifiers_witness :
    ({ identifiers := Except.ok ["b", "a", "b"] } : Backend).identifiers =
      Except.ok ["b", "a", "b"] ∧
    (initial.Identifiers { identifiers := Except.ok ["b", "a", "b"] } {} {} =
      ⟨Outcome.returned Status.OK, ⟨["b", "a", "b"]⟩, initial,
        [BackendCall.factoryIdentifiers]⟩ ∧
    Status.OK.ok = true) :=
  ⟨rfl, Identifiers_returns_factory_identifiers initial
    { identifiers := Except.ok ["b", "a", "b"] } {} ["b", "a", "b"] rfl⟩

/-- C3: for a handle that is not a key of the handle table, each of `Identifier`,
`DisplayName` and `Initialize` returns `Status::CANCELLED`, which is not ok; the
messages handed to the logger afterwards are those before followed by exactly one
message of severity error, the name of the operation followed by `: Unknown handle `
and the handle; the handler invokes no collaborator operation and leaves the
response and the handle table as they were. -/
theorem unknown_handle_is_cancelled (self : ManagerProxyImpl) (env : Backend) (handle : String)
    (hostsession : HostSessionMsg) (settings : InfoDictionaryMsg)
    (identifierResponse : IdentifierResponse) (displayNameResponse : DisplayNameResponse)
    (emptyResponse : EmptyResponse)
    (habsent : self.managers_.lookup handle = none) :
    (self.Identifier env ⟨handle⟩ identifierResponse =
        ⟨Outcome.returned Status.CANCELLED, identifierResponse,
          self.log Severity.error ("Identifier: Unknown handle " ++ handle), []⟩ ∧
      (self.Identifier env ⟨handle⟩ identifierResponse).self.logger_ =
        self.logger_ ++ [(Severity.error, "Identifier: Unknown handle " ++ handle)] ∧
      (self.Identifier env ⟨handle⟩ identifierResponse).self.managers_ = self.managers_ ∧
      (self.Identifier env ⟨handle⟩ identifierResponse).invoked = []) ∧
    (self.DisplayName env ⟨handle⟩ displayNameResponse =
        ⟨Outcome.returned Status.CANCELLED, displayNameResponse,
          self.log Severity.error ("DisplayName: Unknown handle " ++ handle), []⟩ ∧
      (self.DisplayName env ⟨handle⟩ displayNameResponse).self.logger_ =
        self.logger_ ++ [(Severity.error, "DisplayName: Unknown handle " ++ handle)] ∧
      (self.DisplayName env ⟨handle⟩ displayNameResponse).self.managers_ = self.managers_ ∧
      (self.DisplayName env ⟨handle⟩ displayNameResponse).invoked = []) ∧
    (self.Initialize env ⟨handle, hostsession, settings⟩ emptyResponse =
        ⟨Outcome.returned Status.CANCELLED, emptyResponse,
          self.log Severity.error ("Initialize: Unknown handle " ++ handle), []⟩ ∧
      (self.Initialize env ⟨handle, hostsession, settings⟩ emptyResponse).self.logger_ =
        self.logger_ ++ [(Severity.error, "Initialize: Unknown handle " ++ handle)] ∧
      (self.Initialize env ⟨handle, hostsession, settings⟩ emptyResponse).self.managers_ =
        self.managers_ ∧
      (self.Initialize env ⟨handle, hostsession, settings⟩ emptyResponse).invoked = []) ∧
    Status.CANCELLED.ok = false ∧
    (Outcome.returned Status.CANCELLED).failed = true := by
  have hnull := managerFromHandle_of_absent self handle habsent
  have h1 : self.Identifier env ⟨handle⟩ identifierResponse =
      ⟨Outcome.returned Status.CANCELLED, identifierResponse,
        self.log Severity.error ("Identifier: Unknown handle " ++ handle), []⟩ := by
    simp [ManagerProxyImpl.Identifier, hnull]
  have h2 : self.DisplayName env ⟨handle⟩ displayNameResponse =
      ⟨Outcome.returned Status.CANCELLED, displayNameResponse,
        self.log Severity.error ("DisplayName: Unknown handle " ++ handle), []⟩ := by
    simp [ManagerProxyImpl.DisplayName, hnull]
  have h3 : self.Initialize env ⟨handle, hostsession, settings⟩ emptyResponse =
      ⟨Outcome.returned Status.CANCELLED, emptyResponse,
        self.log Severity.error ("Initialize: Unknown handle " ++ handle), []⟩ := by
    simp [ManagerProxyImpl.Initialize, hnull]
  refine ⟨⟨h1, ?_, ?_, ?_⟩, ⟨h2, ?_, ?_, ?_⟩, ⟨h3, ?_, ?_, ?_⟩, rfl, rfl⟩
  · rw [h1]; simp [ManagerProxyImpl.log]
  · rw [h1]; rfl
  · rw [h1]
  · rw [h2]; simp [ManagerProxyImpl.log]
  · rw [h2]; rfl
  · rw [h2]
  · rw [h3]; simp [ManagerProxyImpl.log]
  · rw [h3]; rfl
  · rw [h3]

theorem unknown_handle_is_cancelled_witness :
    (run initial [Call.Instantiate (factoryAt 4096) ⟨"a"⟩,
      Call.Destroy ⟨"0x1000"⟩]).managers_.lookup "0x1000" = none ∧
    (run initial [Call.Instantiate (factoryAt 4096) ⟨"a"⟩,
      Call.Destroy ⟨"0x1000"⟩]).Identifier faultyManagers ⟨"0x1000"⟩ {} =
      ⟨Outcome.returned Status.CANCELLED, {},
        (run initial [Call.Instantiate (factoryAt 4096) ⟨"a"⟩, Call.Destroy ⟨"0x1000"⟩]).log
          Severity.error ("Identifier: Unknown handle " ++ "0x1000"), []⟩ ∧
    ((run initial [Call.Instantiate (factoryAt 4096) ⟨"a"⟩,
      Call.Destroy ⟨"0x1000"⟩]).Identifier faultyManagers ⟨"0x1000"⟩ {}).self.logger_ =
      (run initial [Call.Instantiate (factoryAt 4096) ⟨"a"⟩, Call.Destroy ⟨"0x1000"⟩]).logger_ ++
        [(Severity.error, "Identifier: Unknown handle " ++ "0x1000")] :=
  ⟨by decide,
    (unknown_handle_is_cancelled
      (run initial [Call.Instantiate (factoryAt 4096) ⟨"a"⟩, Call.Destroy ⟨"0x1000"⟩])
      faultyManagers "0x1000" ⟨""⟩ [] {} {} {} (by decide)).1.1,
    (unknown_handle_is_cancelled
      (run initial [Call.Instantiate (factoryAt 4096) ⟨"a"⟩, Call.Destroy ⟨"0x1000"⟩])
      faultyManagers "0x1000" ⟨""⟩ [] {} {} {} (by decide)).1.2.1⟩

theorem Destroy_outcome (self : ManagerProxyImpl) (request : DestroyRequest)
    (response : EmptyResponse) :
    (self.Destroy request response).outcome = Outcome.returned Status.OK := by
  unfold ManagerProxyImpl.Destroy
  split <;> rfl

theorem Destroy_managers_of_absent (self : ManagerProxyImpl) (request : DestroyRequest)
    (response : EmptyResponse) (habsent : self.managers_.lookup request.handle = none) :
    (self.Destroy request response).self.managers_ = self.managers_ := by
  unfold ManagerProxyImpl.Destroy
  rw [habsent]
  rfl

theorem Destroy_managers_of_present (self : ManagerProxyImpl) (request : DestroyRequest)
    (response : EmptyResponse) (manager : ManagerInterfacePtr)
    (hpresent : self.managers_.lookup request.handle = some manager) :
    (self.Destroy request response).self.managers_ = self.managers_.erase request.handle := by
  unfold ManagerProxyImpl.Destroy
  rw [hpresent]
  rfl

theorem Destroy_lookup_self (self : ManagerProxyImpl) (request : DestroyRequest)
    (response : EmptyResponse) :
    (self.Destroy request response).self.managers_.lookup request.handle = none := by
  cases hfind : self.managers_.lookup request.handle with
  | none => rw [Destroy_managers_of_absent self request response hfind, hfind]
  | some manager =>
    rw [Destroy_managers_of_present self request response manager hfind]
    exact AList.lookup_erase _ _

theorem Destroy_lookup_other (self : ManagerProxyImpl) (request : DestroyRequest)
    (response : EmptyResponse) (handle : String) (hne : handle ≠ request.handle) :
    (self.Destroy request response).self.managers_.lookup handle =
      self.managers_.lookup handle := by
  cases hfind : self.managers_.lookup request.handle with
  | none => rw [Destroy_managers_of_absent self request response hfind]
  | some manager =>
    rw [Destroy_managers_of_present self request response manager hfind]
    exact AList.lookup_erase_ne hne

/-- C5: `Destroy` of a handle that is absent from the handle table returns
`Status::OK` and leaves the table as it was; and for every table and handle, a
second `Destroy` of the same handle right after the first also returns `Status::OK`
and yields the same table as the first one did. -/
theorem Destroy_absent_ok_and_twice_same (self : ManagerProxyImpl) (handle : String)
    (response : EmptyResponse) :
    (self.managers_.lookup handle = none →
      (self.Destroy ⟨handle⟩ response).outcome = Outcome.returned Status.OK ∧
      (self.Destroy ⟨handle⟩ response).self.managers_ = self.managers_) ∧
    (self.Destroy ⟨handle⟩ response).outcome = Outcome.returned Status.OK ∧
    ((self.Destroy ⟨handle⟩ response).self.Destroy ⟨handle⟩ response).outcome =
      Outcome.returned Status.OK ∧
    ((self.Destroy ⟨handle⟩ response).self.Destroy ⟨handle⟩ response).self.managers_ =
      (self.Destroy ⟨handle⟩ response).self.managers_ := by
  refine ⟨fun habsent => ⟨Destroy_outcome _ _ _, ?_⟩, Destroy_outcome _ _ _,
    Destroy_outcome _ _ _, ?_⟩
  · exact Destroy_managers_of_absent self ⟨handle⟩ response habsent
  · exact Destroy_managers_of_absent _ ⟨handle⟩ response
      (Destroy_lookup_self self ⟨handle⟩ response)

theorem Destroy_absent_ok_and_twice_same_witness :
    initial.managers_.lookup "0x55d0c8a3f2b0" = none ∧
    (initial.Destroy ⟨"0x55d0c8a3f2b0"⟩ {}).outcome = Outcome.returned Status.OK ∧
    (initial.Destroy ⟨"0x55d0c8a3f2b0"⟩ {}).self.managers_ = initial.managers_ :=
  ⟨rfl, (Destroy_absent_ok_and_twice_same initial "0x55d0c8a3f2b0" {}).1 rfl⟩

/-- C7: `Initialize`, `Identifier` and `DisplayName` leave the handle table exactly
as it was, whatever the manager object does, so every handle resolves to the same
pointer afterwards; and when the handle is live and the operation of the manager
object throws, the call fails for the caller: the exception leaves the handler. -/
theorem handle_scoped_calls_keep_table (self : ManagerProxyImpl) (env : Backend)
    (handle : String) (hostsession : HostSessionMsg) (settings : InfoDictionaryMsg)
    (identifierResponse : IdentifierResponse) (displayNameResponse : DisplayNameResponse)
    (emptyResponse : EmptyResponse) (manager : ManagerInterfacePtr)
    (hlive : self.managers_.lookup handle = some manager) (hmanager : manager ≠ nullptr) :
    ((self.Initialize env ⟨handle, hostsession, settings⟩ emptyResponse).self.managers_ =
        self.managers_ ∧
      (self.Identifier env ⟨handle⟩ identifierResponse).self.managers_ = self.managers_ ∧
      (self.DisplayName env ⟨handle⟩ displayNameResponse).self.managers_ = self.managers_) ∧
    (∀ other : String,
      (self.Initialize env ⟨handle, hostsession, settings⟩ emptyResponse).self.managerFromHandle
          other = self.managerFromHandle other ∧
      (self.Identifier env ⟨handle⟩ identifierResponse).self.managerFromHandle other =
        self.managerFromHandle other ∧
      (self.DisplayName env ⟨handle⟩ displayNameResponse).self.managerFromHandle other =
        self.managerFromHandle other) ∧
    (∀ what : String,
      env.managerInitialize manager (msgToInfoDictionary settings)
          (msgToHostSession hostsession) = Except.error what →
        (self.Initialize env ⟨handle, hostsession, settings⟩ emptyResponse).outcome =
          Outcome.raised what ∧
        (self.Initialize env ⟨handle, hostsession, settings⟩ emptyResponse).outcome.failed =
          true) ∧
    (∀ what : String, env.identifier manager = Except.error what →
        (self.Identifier env ⟨handle⟩ identifierResponse).outcome = Outcome.raised what ∧
        (self.Identifier env ⟨handle⟩ identifierResponse).outcome.failed = true) ∧
    (∀ what : String, env.displayName manager = Except.error what →
        (self.DisplayName env ⟨handle⟩ displayNameResponse).outcome = Outcome.raised what ∧
        (self.DisplayName env ⟨handle⟩ displayNameResponse).outcome.failed = true) := by
  have hfound := managerFromHandle_of_present self handle manager hlive
  have hnz : ¬ manager = 0 := hmanager
  refine ⟨⟨Initialize_managers _ _ _ _, Identifier_managers _ _ _ _,
    DisplayName_managers _ _ _ _⟩, ?_, ?_, ?_, ?_⟩
  · intro other
    simp only [ManagerProxyImpl.managerFromHandle, Initialize_managers, Identifier_managers,
      DisplayName_managers, and_self]
  · intro what hthrow
    have h : (self.Initialize env ⟨handle, hostsession, settings⟩ emptyResponse).outcome =
        Outcome.raised what := by
      simp [ManagerProxyImpl.Initialize, hfound, hnz, hthrow]
    rw [h]
    exact ⟨rfl, rfl⟩
  · intro what hthrow
    have h : (self.Identifier env ⟨handle⟩ identifierResponse).outcome =
        Outcome.raised what := by
      simp [ManagerProxyImpl.Identifier, hfound, hnz, hthrow]
    rw [h]
    exact ⟨rfl, rfl⟩
  · intro what hthrow
    have h : (self.DisplayName env ⟨handle⟩ displayNameResponse).outcome =
        Outcome.raised what := by
      simp [ManagerProxyImpl.DisplayName, hfound, hnz, hthrow]
    rw [h]
    exact ⟨rfl, rfl⟩

theorem Identifier_returned_not_ok (self : ManagerProxyImpl) (env : Backend)
    (request : IdentifierRequest) (response : IdentifierResponse) (status : Status)
    (hreturned : (self.Identifier env request response).outcome = Outcome.returned status)
    (hfailed : status.ok = false) :
    status = Status.CANCELLED ∧
    (self.Identifier env request response).self.logger_ =
      self.logger_ ++ [(Severity.error, "Identifier: Unknown handle " ++ request.handle)] ∧
    self.managerFromHandle request.handle = nullptr := by
  unfold ManagerProxyImpl.Identifier at hreturned ⊢
  simp only [] at hreturned ⊢
  split at hreturned
  · split at hreturned
    · simp at hreturned
    · simp only [Outcome.returned.injEq] at hreturned
      subst hreturned
      simp [Status.ok, Status.OK] at hfailed
  · rename_i hnull
    simp only [Outcome.returned.injEq] at hreturned
    have hnone : self.managerFromHandle request.handle = nullptr := not_not.mp hnull
    simp [hnone, ManagerProxyImpl.log, hreturned]

theorem DisplayName_returned_not_ok (self : ManagerProxyImpl) (env : Backend)
    (request : DisplayNameRequest) (response : DisplayNameResponse) (status : Status)
    (hreturned : (self.DisplayName env request response).outcome = Outcome.returned status)
    (hfailed : status.ok = false) :
    status = Status.CANCELLED ∧
    (self.DisplayName env request response).self.logger_ =
      self.logger_ ++ [(Severity.error, "DisplayName: Unknown handle " ++ request.handle)] ∧
    self.managerFromHandle request.handle = nullptr := by
  unfold ManagerProxyImpl.DisplayName at hreturned ⊢
  simp only [] at hreturned ⊢
  split at hreturned
  · split at hreturned
    · simp at hreturned
    · simp only [Outcome.returned.injEq] at hreturned
      subst hreturned
      simp [Status.ok, Status.OK] at hfailed
  · rename_i hnull
    simp only [Outcome.returned.injEq] at hreturned
    have hnone : self.managerFromHandle request.handle = nullptr := not_not.mp hnull
    simp [hnone, ManagerProxyImpl.log, hreturned]

theorem Initialize_returned_not_ok (self : ManagerProxyImpl) (env : Backend)
    (request : InitializeRequest) (response : EmptyResponse) (status : Status)
    (hreturned : (self.Initialize env request response).outcome = Outcome.returned status)
    (hfailed : status.ok = false) :
    status = Status.CANCELLED ∧
    (self.Initialize env request response).self.logger_ =
      self.logger_ ++ [(Severity.error, "Initialize: Unknown handle " ++ request.handle)] ∧
    self.managerFromHandle request.handle = nullptr := by
  unfold ManagerProxyImpl.Initialize at hreturned ⊢
  simp only [] at hreturned ⊢
  split at hreturned
  · split at hreturned
    · simp at hreturned
    · simp only [Outcome.returned.injEq] at hreturned
      subst hreturned
      simp [Status.ok, Status.OK] at hfailed
  · rename_i hnull
    simp only [Outcome.returned.injEq] at hreturned
    have hnone : self.managerFromHandle request.handle = nullptr := not_not.mp hnull
    simp [hnone, ManagerProxyImpl.log, hreturned]

theorem Identifiers_returned (self : ManagerProxyImpl) (env : Backend)
    (request : EmptyRequest) (response : IdentifiersResponse) (status : Status)
    (hreturned : (self.Identifiers env request response).outcome = Outcome.returned status) :
    status = Status.OK := by
  unfold ManagerProxyImpl.Identifiers at hreturned
  split at hreturned
  · simp at hreturned
  · simp only [Outcome.returned.injEq] at hreturned
    exact hreturned.symm

theorem Instantiate_returned (self : ManagerProxyImpl) (env : Backend)
    (request : InstantiateRequest) (response : InstantiateResponse) (status : Status)
    (hreturned : (self.Instantiate env request response).outcome = Outcome.returned status) :
    status = Status.OK := by
  unfold ManagerProxyImpl.Instantiate at hreturned
  simp only [] at hreturned
  split at hreturned
  · simp at hreturned
  · simp only [Outcome.returned.injEq] at hreturned
    exact hreturned.symm

/-- C8, as the code has it: the status a handler returns carries no reason. The
call `Identifier` with the handle `garbage-handle` on the empty handle table returns
a status that is not ok and whose message is empty, so it is false that every
status that is not ok comes with a message that is not empty. -/
theorem failed_status_message_is_empty :
    ¬ (∀ status : Status,
      (initial.Identifier {} ⟨"garbage-handle"⟩ {}).outcome = Outcome.returned status →
      status.ok = false → status.error_message ≠ "") := by
  intro h
  exact h Status.CANCELLED rfl rfl rfl

/-- C8, amended: whenever a handler returns a status that is not ok, the handler is
`Identifier`, `DisplayName` or `Initialize`, the status is `Status::CANCELLED` with
an empty message, the handle of the request resolves to the null pointer, and the
reason, the name of the operation followed by `: Unknown handle ` and the handle, is
the message of severity error that the call handed to the logger. `Identifiers`, `Instantiate` and `Destroy` return no status
other than `Status::OK`. -/
theorem failed_status_is_cancelled_reason_logged (self : ManagerProxyImpl) (env : Backend)
    (status : Status) (hfailed : status.ok = false) :
    (∀ request response,
      (self.Identifiers env request response).outcome ≠ Outcome.returned status) ∧
    (∀ request response,
      (self.Instantiate env request response).outcome ≠ Outcome.returned status) ∧
    (∀ request response,
      (self.Destroy request response).outcome ≠ Outcome.returned status) ∧
    (∀ request response,
      (self.Identifier env request response).outcome = Outcome.returned status →
        status = Status.CANCELLED ∧ status.error_message = "" ∧
        (self.Identifier env request response).self.logger_ = self.logger_ ++
          [(Severity.error, "Identifier: Unknown handle " ++ request.handle)] ∧
        self.managerFromHandle request.handle = nullptr) ∧
    (∀ request response,
      (self.DisplayName env request response).outcome = Outcome.returned status →
        status = Status.CANCELLED ∧ status.error_message = "" ∧
        (self.DisplayName env request response).self.logger_ = self.logger_ ++
          [(Severity.error, "DisplayName: Unknown handle " ++ request.handle)] ∧
        self.managerFromHandle request.handle = nullptr) ∧
    (∀ request response,
      (self.Initialize env request response).outcome = Outcome.returned status →
        status = Status.CANCELLED ∧ status.error_message = "" ∧
        (self.Initialize env request response).self.logger_ = self.logger_ ++
          [(Severity.error, "Initialize: Unknown handle " ++ request.handle)] ∧
        self.managerFromHandle request.handle = nullptr) := by
  have hne : status ≠ Status.OK := by
    intro h
    rw [h] at hfailed
    simp [Status.ok, Status.OK] at hfailed
  refine ⟨?_, ?_, ?_, ?_, ?_, ?_⟩
  · intro request response h
    exact hne (Identifiers_returned self env request response status h)
  · intro request response h
    exact hne (Instantiate_returned self env request response status h)
  · intro request response h
    rw [Destroy_outcome] at h
    exact hne (Outcome.returned.inj h).symm
  · intro request response h
    obtain ⟨h1, h2, h3⟩ := Identifier_returned_not_ok self env request response status h hfailed
    exact ⟨h1, by rw [h1]; rfl, h2, h3⟩
  · intro request response h
    obtain ⟨h1, h2, h3⟩ := DisplayName_returned_not_ok self env request response status h hfailed
    exact ⟨h1, by rw [h1]; rfl, h2, h3⟩
  · intro request response h
    obtain ⟨h1, h2, h3⟩ := Initialize_returned_not_ok self env request response status h hfailed
    exact ⟨h1, by rw [h1]; rfl, h2, h3⟩

theorem failed_status_is_cancelled_reason_logged_witness :
    Status.CANCELLED.ok = false ∧
    (initial.Identifier {} ⟨"garbage-handle"⟩ {}).outcome = Outcome.returned Status.CANCELLED ∧
    Status.CANCELLED.error_message = "" ∧
    (initial.Identifier {} ⟨"garbage-handle"⟩ {}).self.logger_ =
      initial.logger_ ++ [(Severity.error, "Identifier: Unknown handle " ++ "garbage-handle")] :=
  ⟨rfl, rfl,
    (((failed_status_is_cancelled_reason_logged initial {} Status.CANCELLED rfl).2.2.2.1
      ⟨"garbage-handle"⟩ {} rfl).2).1,
    (((failed_status_is_cancelled_reason_logged initial {} Status.CANCELLED rfl).2.2.2.1
      ⟨"garbage-handle"⟩ {} rfl).2).2.1⟩

theorem handle_scoped_calls_keep_table_witness :
    oneLive.managers_.lookup "0x1000" = some 4096 ∧ (4096 : ManagerInterfacePtr) ≠ nullptr ∧
    (oneLive.Initialize faultyManagers ⟨"0x1000", ⟨"host"⟩, []⟩ {}).self.managers_ =
      oneLive.managers_ ∧
    (oneLive.Initialize faultyManagers ⟨"0x1000", ⟨"host"⟩, []⟩ {}).outcome =
      Outcome.raised "settings rejected" :=
  ⟨by decide, by decide,
    (handle_scoped_calls_keep_table oneLive faultyManagers "0x1000" ⟨"host"⟩ [] {} {} {} 4096
      (by decide) (by decide)).1.1,
    ((handle_scoped_calls_keep_table oneLive faultyManagers "0x1000" ⟨"host"⟩ [] {} {} {} 4096
      (by decide) (by decide)).2.2.1 "settings rejected" rfl).1⟩

/-! ## The handle table along a sequence of calls -/

theorem run_snoc (self : ManagerProxyImpl) (calls : List Call) (call : Call) :
    run self (calls ++ [call]) = step (run self calls) call := by
  simp [run, List.foldl_append]

theorem lookup_mapInsert_ne (m : Managers) (key handle : String) (manager : ManagerInterfacePtr)
    (hne : handle ≠ key) : (mapInsert m key manager).lookup handle = m.lookup handle := by
  unfold mapInsert
  split
  · rfl
  · exact AList.lookup_insert_ne hne

theorem lookup_mapInsert_of_absent (m : Managers) (key : String) (manager : ManagerInterfacePtr)
    (habsent : m.lookup key = none) : (mapInsert m key manager).lookup key = some manager := by
  unfold mapInsert
  rw [if_neg (AList.lookup_eq_none.mp habsent)]
  exact AList.lookup_insert m

theorem lookup_mapInsert_of_present (m : Managers) (key : String)
    (manager stored : ManagerInterfacePtr) (hpresent : m.lookup key = some stored) :
    (mapInsert m key manager).lookup key = some stored := by
  unfold mapInsert
  have hmem : key ∈ m := by
    rw [← AList.lookup_isSome, hpresent]
    rfl
  rw [if_pos hmem, hpresent]

theorem Instantiate_of_made (self : ManagerProxyImpl) (env : Backend)
    (request : InstantiateRequest) (response : InstantiateResponse)
    (manager : ManagerInterfacePtr)
    (hmade : env.instantiate request.identifier = Except.ok manager) :
    (self.Instantiate env request response).outcome = Outcome.returned Status.OK ∧
    (self.Instantiate env request response).response.handle = ptrToString manager ∧
    (self.Instantiate env request response).self.managers_ =
      mapInsert self.managers_ (ptrToString manager) manager := by
  unfold ManagerProxyImpl.Instantiate
  simp only []
  rw [hmade]
  exact ⟨rfl, rfl, rfl⟩

theorem Instantiate_of_thrown (self : ManagerProxyImpl) (env : Backend)
    (request : InstantiateRequest) (response : InstantiateResponse) (what : String)
    (hthrown : env.instantiate request.identifier = Except.error what) :
    (self.Instantiate env request response).outcome = Outcome.raised what ∧
    (self.Instantiate env request response).self = self := by
  unfold ManagerProxyImpl.Instantiate
  simp only []
  rw [hthrown]
  exact ⟨rfl, rfl⟩

theorem mem_instances_of_lookup (m : Managers) (handle : String) (manager : ManagerInterfacePtr)
    (hfound : m.lookup handle = some manager) : manager ∈ Managers.instances m := by
  have hmem : (⟨handle, manager⟩ : Sigma fun _ : String => ManagerInterfacePtr) ∈ m.entries :=
    AList.mem_lookup_iff.mp (by rw [hfound]; exact rfl)
  exact List.mem_map.mpr ⟨_, hmem, rfl⟩

/-- Every key of a table reached from the empty one is the rendering of the pointer
stored under it. -/
theorem run_keys_rendered (calls : List Call) :
    ∀ (handle : String) (manager : ManagerInterfacePtr),
      (run initial calls).managers_.lookup handle = some manager →
        handle = ptrToString manager := by
  induction calls using List.reverseRecOn with
  | nil =>
    intro handle manager h
    simp [run, initial] at h
  | append_singleton calls call ih =>
    intro handle manager h
    rw [run_snoc] at h
    cases call with
    | Destroy request =>
      simp only [step] at h
      by_cases heq : handle = request.handle
      · rw [heq, Destroy_lookup_self] at h
        exact absurd h (by simp)
      · rw [Destroy_lookup_other _ _ _ _ heq] at h
        exact ih handle manager h
    | Instantiate env request =>
      simp only [step] at h
      cases hmade : env.instantiate request.identifier with
      | error what =>
        rw [(Instantiate_of_thrown _ env request {} what hmade).2] at h
        exact ih handle manager h
      | ok made =>
        rw [(Instantiate_of_made _ env request {} made hmade).2.2] at h
        by_cases heq : handle = ptrToString made
        · cases hold : (run initial calls).managers_.lookup (ptrToString made) with
          | none =>
            rw [heq, lookup_mapInsert_of_absent _ _ _ hold] at h
            rw [heq, ← Option.some.inj h]
          | some stored =>
            rw [heq, lookup_mapInsert_of_present _ _ _ stored hold] at h
            rw [heq, ← Option.some.inj h]
            exact ih _ _ hold
        · rw [lookup_mapInsert_ne _ _ _ _ heq] at h
          exact ih handle manager h

theorem Instantiate_lookup_handle (calls : List Call) (env : Backend)
    (request : InstantiateRequest) (response : InstantiateResponse)
    (manager : ManagerInterfacePtr)
    (hmade : env.instantiate request.identifier = Except.ok manager) :
    ((run initial calls).Instantiate env request response).self.managers_.lookup
      (ptrToString manager) = some manager := by
  rw [(Instantiate_of_made _ env request response manager hmade).2.2]
  cases hold : (run initial calls).managers_.lookup (ptrToString manager) with
  | none => exact lookup_mapInsert_of_absent _ _ _ hold
  | some stored =>
    rw [lookup_mapInsert_of_present _ _ _ stored hold]
    exact congrArg some (ptrToString_injective (run_keys_rendered calls _ _ hold)).symm

/-- C1, as the code has it: the handle is the rendered address of the instance, and
nothing generates a fresh one. With one instance live at address 4096, an
`Instantiate` for which the plugin factory hands out that same instance again
succeeds and returns `0x1000`, which is a key of the table at the moment of the
call: the returned handle is not distinct from every live handle. -/
theorem Instantiate_same_instance_returns_live_handle :
    (oneLive.Instantiate (factoryAt 4096) ⟨"org.openassetio.test.manager"⟩ {}).outcome =
      Outcome.returned Status.OK ∧
    (oneLive.Instantiate (factoryAt 4096) ⟨"org.openassetio.test.manager"⟩ {}).response.handle =
      "0x1000" ∧
    "0x1000" ∈ oneLive.managers_ ∧
    ¬ (∀ live : String, live ∈ oneLive.managers_ →
      (oneLive.Instantiate (factoryAt 4096)
        ⟨"org.openassetio.test.manager"⟩ {}).response.handle ≠ live) := by
  refine ⟨by decide, by decide, by decide, ?_⟩
  intro h
  exact h "0x1000" (by decide) (by decide)

/-- C1, amended: after any sequence of `Instantiate` and `Destroy` calls from the
empty handle table, an `Instantiate` for which the plugin factory hands out an
instance that is none of the instances the table holds at that moment succeeds and
returns a handle that is no key of the table at that moment, hence distinct from
every live handle; afterwards the new handle resolves to the new instance and every
handle that was live still resolves to the instance it resolved to, so distinct live
instances never share a handle. -/
theorem Instantiate_returns_fresh_handle (calls : List Call) (env : Backend)
    (request : InstantiateRequest) (response : InstantiateResponse)
    (manager : ManagerInterfacePtr)
    (hmade : env.instantiate request.identifier = Except.ok manager)
    (hdistinct : manager ∉ Managers.instances (run initial calls).managers_) :
    ((run initial calls).Instantiate env request response).outcome =
      Outcome.returned Status.OK ∧
    (run initial calls).managers_.lookup
      ((run initial calls).Instantiate env request response).response.handle = none ∧
    (∀ live : String, live ∈ (run initial calls).managers_ →
      ((run initial calls).Instantiate env request response).response.handle ≠ live) ∧
    ((run initial calls).Instantiate env request response).self.managers_.lookup
      ((run initial calls).Instantiate env request response).response.handle = some manager ∧
    (∀ (live : String) (other : ManagerInterfacePtr),
      (run initial calls).managers_.lookup live = some other →
      ((run initial calls).Instantiate env request response).self.managers_.lookup live =
        some other) := by
  obtain ⟨hout, hhandle, hmanagers⟩ :=
    Instantiate_of_made (run initial calls) env request response manager hmade
  have hfresh : (run initial calls).managers_.lookup (ptrToString manager) = none := by
    cases hold : (run initial calls).managers_.lookup (ptrToString manager) with
    | none => rfl
    | some stored =>
      have hsame : manager = stored := ptrToString_injective (run_keys_rendered calls _ _ hold)
      exact absurd (hsame ▸ mem_instances_of_lookup _ _ _ hold) hdistinct
  refine ⟨hout, ?_, ?_, ?_, ?_⟩
  · rw [hhandle]
    exact hfresh
  · intro live hlive heq
    rw [hhandle] at heq
    rw [← heq] at hlive
    exact (AList.lookup_eq_none.mp hfresh) hlive
  · rw [hhandle]
    exact Instantiate_lookup_handle calls env request response manager hmade
  · intro live other hlive
    rw [hmanagers]
    have hne : live ≠ ptrToString manager := by
      intro heq
      rw [heq, hfresh] at hlive
      exact absurd hlive (by simp)
    rw [lookup_mapInsert_ne _ _ _ _ hne]
    exact hlive

theorem Instantiate_returns_fresh_handle_witness :
    (factoryAt 8192).instantiate ({ identifier := "b" } : InstantiateRequest).identifier =
      Except.ok 8192 ∧
    8192 ∉ Managers.instances (run initial [Call.Instantiate (factoryAt 4096) ⟨"a"⟩]).managers_ ∧
    (run initial [Call.Instantiate (factoryAt 4096) ⟨"a"⟩]).managers_.lookup
      ((run initial [Call.Instantiate (factoryAt 4096) ⟨"a"⟩]).Instantiate (factoryAt 8192)
        { identifier := "b" } {}).response.handle = none :=
  ⟨rfl, by decide,
    (Instantiate_returns_fresh_handle [Call.Instantiate (factoryAt 4096) ⟨"a"⟩] (factoryAt 8192)
      { identifier := "b" } {} 8192 rfl (by decide)).2.1⟩

/-- C6: after any sequence of `Instantiate` and `Destroy` calls from the empty handle
table, when the plugin factory produces an instance for the requested identifier,
`Instantiate` returns a handle that resolves to exactly that instance; an
`Identifier` call with this handle right afterwards returns `Status::OK` with the
identifier string that this instance reports, and a `DisplayName` call returns
`Status::OK` with the display name that this instance reports; the only manager
operation either call invokes is the one on this instance. -/
theorem fresh_handle_routes_to_created_instance (calls : List Call) (env : Backend)
    (request : InstantiateRequest) (response : InstantiateResponse)
    (manager : ManagerInterfacePtr) (after : Backend)
    (identifierResponse : IdentifierResponse) (displayNameResponse : DisplayNameResponse)
    (identifier displayName : String)
    (hmade : env.instantiate request.identifier = Except.ok manager)
    (hinstance : manager ≠ nullptr)
    (hidentifier : after.identifier manager = Except.ok identifier)
    (hdisplayName : after.displayName manager = Except.ok displayName) :
    ((run initial calls).Instantiate env request response).outcome =
      Outcome.returned Status.OK ∧
    ((run initial calls).Instantiate env request response).self.managerFromHandle
      ((run initial calls).Instantiate env request response).response.handle = manager ∧
    ((run initial calls).Instantiate env request response).self.Identifier after
        ⟨((run initial calls).Instantiate env request response).response.handle⟩
        identifierResponse =
      ⟨Outcome.returned Status.OK, ⟨identifier⟩,
        ((run initial calls).Instantiate env request response).self,
        [BackendCall.managerIdentifier manager]⟩ ∧
    ((run initial calls).Instantiate env request response).self.DisplayName after
        ⟨((run initial calls).Instantiate env request response).response.handle⟩
        displayNameResponse =
      ⟨Outcome.returned Status.OK, ⟨displayName⟩,
        ((run initial calls).Instantiate env request response).self,
        [BackendCall.managerDisplayName manager]⟩ := by
  obtain ⟨hout, hhandle, -⟩ :=
    Instantiate_of_made (run initial calls) env request response manager hmade
  have hfound := managerFromHandle_of_present _ _ _
    (Instantiate_lookup_handle calls env request response manager hmade)
  have hnz : ¬ manager = 0 := hinstance
  rw [hhandle]
  refine ⟨hout, hfound, ?_, ?_⟩
  · simp [ManagerProxyImpl.Identifier, hfound, hnz, hidentifier]
  · simp [ManagerProxyImpl.DisplayName, hfound, hnz, hdisplayName]

theorem fresh_handle_routes_to_created_instance_witness :
    (factoryAt 4096).instantiate
        ({ identifier := "org.openassetio.test.manager" } : InstantiateRequest).identifier =
      Except.ok 4096 ∧
    (4096 : ManagerInterfacePtr) ≠ nullptr ∧
    faultyManagers.identifier 4096 = Except.ok "org.openassetio.test.manager" ∧
    faultyManagers.displayName 4096 = Except.ok "Test Manager" ∧
    ((run initial []).Instantiate (factoryAt 4096)
        { identifier := "org.openassetio.test.manager" } {}).self.Identifier faultyManagers
        ⟨((run initial []).Instantiate (factoryAt 4096)
          { identifier := "org.openassetio.test.manager" } {}).response.handle⟩ {} =
      ⟨Outcome.returned Status.OK, ⟨"org.openassetio.test.manager"⟩,
        ((run initial []).Instantiate (factoryAt 4096)
          { identifier := "org.openassetio.test.manager" } {}).self,
        [BackendCall.managerIdentifier 4096]⟩ :=
  ⟨rfl, by decide, rfl, rfl,
    (fresh_handle_routes_to_created_instance [] (factoryAt 4096)
      { identifier := "org.openassetio.test.manager" } {} 4096 faultyManagers {} {}
      "org.openassetio.test.manager" "Test Manager" rfl (by decide) rfl rfl).2.2.1⟩

/-! ## Resolution and the history of a handle -/

end ManagerProxy
